import Mathlib

/-!
Shruti-1 voice controller: clock counters, tick flag and pattern test.

A shallow embedding of the inline member functions of
`hardware_shruti::VoiceController` (src/hardware/shruti/voice_controller.h)
together with the properties that the specification states about them.

The class is a static singleton: every member variable is a `static` field.
The embedding makes that hidden global state explicit as a record, and each
member function becomes a function from record to record (mutators) or from
record to value (accessors).

Fixed-width integers are modelled as `Int` / `Nat` with the conversions
written out:
* `int16_t`  : `Int`, wrapped by `wrapS16`;
* `int8_t`   : `Int`, wrapped by `wrapS8`;
* `uint8_t`  : `Nat`, wrapped by `wrapU8`;
* `uint16_t` : `Nat`, wrapped by `wrapU16`.
-/

namespace hardware_shruti

/-! ## Fixed-width conversions -/

/-- Conversion of an integer value to `int16_t` (two's complement wrap-around). -/
def wrapS16 (x : Int) : Int := (x + 32768) % 65536 - 32768

/-- Conversion of an integer value to `int8_t` (two's complement wrap-around). -/
def wrapS8 (x : Int) : Int := (x + 128) % 256 - 128

/-- Conversion of an integer value to `uint8_t` (reduction modulo 256). -/
def wrapU8 (x : Int) : Nat := (x % 256).toNat

/-- Conversion of a natural value to `uint16_t` (reduction modulo 65536). -/
def wrapU16 (x : Nat) : Nat := x % 65536

/-! ## Constants -/

/-- Source: `static const uint8_t kMidiClockPrescaler = 24 / 4;` (MIDI ppqn / xox ppqn). -/
def kMidiClockPrescaler : Nat := 24 / 4

/-- Source: `enum ArpeggioDirection`. -/
inductive ArpeggioDirection where
  | ARPEGGIO_DIRECTION_UP
  | ARPEGGIO_DIRECTION_DOWN
  | ARPEGGIO_DIRECTION_UP_DOWN
  | ARPEGGIO_DIRECTION_RANDOM
  deriving DecidableEq, Repr

/-! ## Controller state -/

/-- The static member variables of `VoiceController`, in declaration order.
The types `NoteStack` (declared in `note_stack.h`) and `Voice*` are not part of
this header; they are taken as parameters, since no function modelled here
reads or writes the fields that carry them. -/
structure VoiceController (NoteStack VoicePtr : Type) where
  /-- Field `static int16_t internal_clock_counter_`. -/
  internal_clock_counter_ : Int
  /-- Field `static uint8_t midi_clock_counter_`. -/
  midi_clock_counter_ : Nat
  /-- Field `static int16_t step_duration_[2]`, element 0. -/
  step_duration_0 : Int
  /-- Field `static int16_t step_duration_[2]`, element 1. -/
  step_duration_1 : Int
  /-- Field `static uint8_t random_byte_`. -/
  random_byte_ : Nat
  /-- Field `static uint16_t pattern_`. -/
  pattern_ : Nat
  /-- Field `static uint16_t pattern_mask_`. -/
  pattern_mask_ : Nat
  /-- Field `static uint8_t pattern_step_`. -/
  pattern_step_ : Nat
  /-- Field `static uint8_t pattern_size_`. -/
  pattern_size_ : Nat
  /-- Field `static int8_t arpeggio_step_`. -/
  arpeggio_step_ : Int
  /-- Field `static int8_t direction_`. -/
  direction_ : Int
  /-- Field `static int8_t octave_step_`. -/
  octave_step_ : Int
  /-- Field `static int8_t octaves_`. -/
  octaves_ : Int
  /-- Field `static uint8_t mode_`. -/
  mode_ : Nat
  /-- Field `static NoteStack notes_`. -/
  notes_ : NoteStack
  /-- Field `static Voice* voices_`. -/
  voices_ : VoicePtr
  /-- Field `static uint8_t num_voices_`. -/
  num_voices_ : Nat
  /-- Field `static uint8_t tempo_`. -/
  tempo_ : Nat
  /-- Field `static uint8_t swing_`. -/
  swing_ : Nat
  /-- Field `static uint8_t has_ticked_`. -/
  has_ticked_ : Nat
  /-- Field `static uint16_t step_duration_estimator_num_`. -/
  step_duration_estimator_num_ : Nat
  /-- Field `static uint8_t step_duration_estimator_den_`. -/
  step_duration_estimator_den_ : Nat
  /-- Field `static uint16_t estimated_beat_duration_`. -/
  estimated_beat_duration_ : Nat

namespace VoiceController

variable {NoteStack VoicePtr : Type}

/-- Every field holds a value of its declared machine type. -/
def InRange (s : VoiceController NoteStack VoicePtr) : Prop :=
  (-32768 ≤ s.internal_clock_counter_ ∧ s.internal_clock_counter_ ≤ 32767) ∧
  s.midi_clock_counter_ < 256 ∧
  (-32768 ≤ s.step_duration_0 ∧ s.step_duration_0 ≤ 32767) ∧
  (-32768 ≤ s.step_duration_1 ∧ s.step_duration_1 ≤ 32767) ∧
  s.random_byte_ < 256 ∧
  s.pattern_ < 65536 ∧
  s.pattern_mask_ < 65536 ∧
  s.pattern_step_ < 256 ∧
  s.pattern_size_ < 256 ∧
  (-128 ≤ s.arpeggio_step_ ∧ s.arpeggio_step_ ≤ 127) ∧
  (-128 ≤ s.direction_ ∧ s.direction_ ≤ 127) ∧
  (-128 ≤ s.octave_step_ ∧ s.octave_step_ ≤ 127) ∧
  (-128 ≤ s.octaves_ ∧ s.octaves_ ≤ 127) ∧
  s.mode_ < 256 ∧
  s.num_voices_ < 256 ∧
  s.tempo_ < 256 ∧
  s.swing_ < 256 ∧
  s.has_ticked_ < 256 ∧
  s.step_duration_estimator_num_ < 65536 ∧
  s.step_duration_estimator_den_ < 256 ∧
  s.estimated_beat_duration_ < 65536

/-! ## Member functions defined in the header -/

/-- Source: `static void SetOctaves(uint8_t octaves) { octaves_ = octaves; }`.
The argument is a `uint8_t`; the assignment converts it to the `int8_t` field. -/
def SetOctaves (s : VoiceController NoteStack VoicePtr) (octaves : Nat) :
    VoiceController NoteStack VoicePtr :=
  { s with octaves_ := wrapS8 (wrapU8 (octaves : Int) : Nat) }

/-- Source: `static inline void Audio() { --internal_clock_counter_; }`.
The decremented value is stored back into the `int16_t` field; at `-32768` it
leaves the 16-bit range and the model wraps it to `32767`. -/
def Audio (s : VoiceController NoteStack VoicePtr) : VoiceController NoteStack VoicePtr :=
  { s with internal_clock_counter_ := wrapS16 (s.internal_clock_counter_ - 1) }

/-- Source: `static inline void ExternalSync() { --midi_clock_counter_; }`. -/
def ExternalSync (s : VoiceController NoteStack VoicePtr) :
    VoiceController NoteStack VoicePtr :=
  { s with midi_clock_counter_ := wrapU8 ((s.midi_clock_counter_ : Int) - 1) }

/-- Source: `static inline uint8_t step() { return pattern_step_; }`. -/
def step (s : VoiceController NoteStack VoicePtr) : Nat := s.pattern_step_

/-- Source: `static inline uint8_t has_ticked() { return has_ticked_; }`. -/
def has_ticked (s : VoiceController NoteStack VoicePtr) : Nat := s.has_ticked_

/-- Source: `static inline void ClearTick() { has_ticked_ = 0; }`. -/
def ClearTick (s : VoiceController NoteStack VoicePtr) : VoiceController NoteStack VoicePtr :=
  { s with has_ticked_ := 0 }

/-- Source: `static inline uint16_t has_arpeggiator_note() { return pattern_mask_ & pattern_; }`. -/
def has_arpeggiator_note (s : VoiceController NoteStack VoicePtr) : Nat :=
  wrapU16 (s.pattern_mask_ &&& s.pattern_)

/-- Source: `static void set_pattern_size(uint8_t pattern_size) { pattern_size_ = pattern_size; }`.
The argument is a `uint8_t`. -/
def set_pattern_size (s : VoiceController NoteStack VoicePtr) (pattern_size : Nat) :
    VoiceController NoteStack VoicePtr :=
  { s with pattern_size_ := wrapU8 (pattern_size : Int) }

/-- Source: `static uint16_t estimated_beat_duration() { return estimated_beat_duration_; }`. -/
def estimated_beat_duration (s : VoiceController NoteStack VoicePtr) : Nat :=
  s.estimated_beat_duration_

end VoiceController

/-! ## Call sequences -/

/-- The function `f` called `n` times in a row. -/
def callN {σ : Type} (f : σ → σ) : Nat → σ → σ
  | 0, s => s
  | n + 1, s => callN f n (f s)

/-- The two interrupt-context entry points. -/
inductive TickCall where
  | audio
  | externalSync
  deriving DecidableEq, Repr

/-- One interrupt-context call applied to the controller state. -/
def TickCall.apply {NoteStack VoicePtr : Type} :
    TickCall → VoiceController NoteStack VoicePtr → VoiceController NoteStack VoicePtr
  | .audio, s => s.Audio
  | .externalSync, s => s.ExternalSync

/-- A sequence of interrupt-context calls, executed from left to right. -/
def runTicks {NoteStack VoicePtr : Type} :
    List TickCall → VoiceController NoteStack VoicePtr → VoiceController NoteStack VoicePtr
  | [], s => s
  | c :: cs, s => runTicks cs (c.apply s)

/-- The calls of the header that are not `ClearTick()`. -/
inductive Call where
  | audio
  | externalSync
  | setOctaves (octaves : Nat)
  | setPatternSize (pattern_size : Nat)
  deriving DecidableEq, Repr

/-- One call applied to the controller state. -/
def Call.apply {NoteStack VoicePtr : Type} :
    Call → VoiceController NoteStack VoicePtr → VoiceController NoteStack VoicePtr
  | .audio, s => s.Audio
  | .externalSync, s => s.ExternalSync
  | .setOctaves o, s => s.SetOctaves o
  | .setPatternSize n, s => s.set_pattern_size n

/-- A sequence of calls, executed from left to right. -/
def runCalls {NoteStack VoicePtr : Type} :
    List Call → VoiceController NoteStack VoicePtr → VoiceController NoteStack VoicePtr
  | [], s => s
  | c :: cs, s => runCalls cs (c.apply s)

/-! ## Reference definitions taken from the specification -/

/-- Direct indexed bit-testing, as the specification words it
("pattern bit at step_index"): bit `step_index` of `pattern`. -/
def pattern_bit_at (pattern step_index : Nat) : Bool :=
  pattern / 2 ^ step_index % 2 == 1

/-- The arpeggio invariant of the data model: `octave_step` within `[0, octaves)`. -/
def OctaveStepInRange {NoteStack VoicePtr : Type} (s : VoiceController NoteStack VoicePtr) :
    Prop :=
  0 ≤ s.octave_step_ ∧ s.octave_step_ < s.octaves_

instance {NoteStack VoicePtr : Type} (s : VoiceController NoteStack VoicePtr) :
    Decidable (OctaveStepInRange s) := by
  unfold OctaveStepInRange; infer_instance

/-! ## Concrete states used as examples -/

/-- A concrete in-range state: five slots into the 16-slot pattern
`0b1010101010101010` (mask `1 << 5`), three ticks and six external pulses left
on the counters, a three-octave range with octave step 2, tick flag set. -/
def sampleState : VoiceController Unit Unit where
  internal_clock_counter_ := 3
  midi_clock_counter_ := 6
  step_duration_0 := 612
  step_duration_1 := 612
  random_byte_ := 0
  pattern_ := 43690
  pattern_mask_ := 32
  pattern_step_ := 5
  pattern_size_ := 16
  arpeggio_step_ := 0
  direction_ := 1
  octave_step_ := 2
  octaves_ := 3
  mode_ := 0
  notes_ := ()
  voices_ := ()
  num_voices_ := 1
  tempo_ := 120
  swing_ := 0
  has_ticked_ := 1
  step_duration_estimator_num_ := 0
  step_duration_estimator_den_ := 0
  estimated_beat_duration_ := 2448

/-! ## `Audio()` -/

namespace VoiceController

variable {NoteStack VoicePtr : Type}

/-- Claim C1. `Audio()` leaves the internal clock counter equal to its previous
value minus 1 as a signed 16-bit value (exactly `c - 1` whenever `c > -32768`),
and leaves every other field unchanged: external clock counter, step
durations, random byte, pattern, pattern mask, step index, pattern size,
arpeggio fields, note stack, voices, tempo, swing, tick flag and estimator
fields are the same before and after. -/
theorem Audio_contract (s : VoiceController NoteStack VoicePtr) :
    s.Audio.internal_clock_counter_ = wrapS16 (s.internal_clock_counter_ - 1) ∧
    (-32768 < s.internal_clock_counter_ → s.internal_clock_counter_ ≤ 32767 →
      s.Audio.internal_clock_counter_ = s.internal_clock_counter_ - 1) ∧
    s.Audio.midi_clock_counter_ = s.midi_clock_counter_ ∧
    s.Audio.step_duration_0 = s.step_duration_0 ∧
    s.Audio.step_duration_1 = s.step_duration_1 ∧
    s.Audio.random_byte_ = s.random_byte_ ∧
    s.Audio.pattern_ = s.pattern_ ∧
    s.Audio.pattern_mask_ = s.pattern_mask_ ∧
    s.Audio.pattern_step_ = s.pattern_step_ ∧
    s.Audio.pattern_size_ = s.pattern_size_ ∧
    s.Audio.arpeggio_step_ = s.arpeggio_step_ ∧
    s.Audio.direction_ = s.direction_ ∧
    s.Audio.octave_step_ = s.octave_step_ ∧
    s.Audio.octaves_ = s.octaves_ ∧
    s.Audio.mode_ = s.mode_ ∧
    s.Audio.notes_ = s.notes_ ∧
    s.Audio.voices_ = s.voices_ ∧
    s.Audio.num_voices_ = s.num_voices_ ∧
    s.Audio.tempo_ = s.tempo_ ∧
    s.Audio.swing_ = s.swing_ ∧
    s.Audio.has_ticked_ = s.has_ticked_ ∧
    s.Audio.step_duration_estimator_num_ = s.step_duration_estimator_num_ ∧
    s.Audio.step_duration_estimator_den_ = s.step_duration_estimator_den_ ∧
    s.Audio.estimated_beat_duration_ = s.estimated_beat_duration_ := by
  refine ⟨rfl, ?_, rfl, rfl, rfl, rfl, rfl, rfl, rfl, rfl, rfl, rfl, rfl, rfl, rfl, rfl, rfl,
    rfl, rfl, rfl, rfl, rfl, rfl, rfl⟩
  intro hlo hhi
  show wrapS16 (s.internal_clock_counter_ - 1) = s.internal_clock_counter_ - 1
  unfold wrapS16
  omega

/-- Instance of `Audio_contract` at `sampleState`, whose counter is 3. -/
theorem Audio_contract_witness :
    (-32768 < sampleState.internal_clock_counter_ ∧
      sampleState.internal_clock_counter_ ≤ 32767) ∧
    sampleState.Audio.internal_clock_counter_ = sampleState.internal_clock_counter_ - 1 :=
  ⟨⟨by decide, by decide⟩, (Audio_contract sampleState).2.1 (by decide) (by decide)⟩

/-! ## `ExternalSync()` -/

/-- Claim C2. `ExternalSync()` decrements the external pulse counter by 1 in
unsigned 8-bit arithmetic (new value `(c - 1) mod 256`, hence `c - 1` for every
`c >= 1` in range) and, like `Audio()`, leaves every other field unchanged,
including the internal clock counter, the tick flag and the estimator fields. -/
theorem ExternalSync_contract (s : VoiceController NoteStack VoicePtr) :
    (s.ExternalSync.midi_clock_counter_ : Int) = ((s.midi_clock_counter_ : Int) - 1) % 256 ∧
    (1 ≤ s.midi_clock_counter_ → s.midi_clock_counter_ < 256 →
      s.ExternalSync.midi_clock_counter_ = s.midi_clock_counter_ - 1) ∧
    s.ExternalSync.internal_clock_counter_ = s.internal_clock_counter_ ∧
    s.ExternalSync.step_duration_0 = s.step_duration_0 ∧
    s.ExternalSync.step_duration_1 = s.step_duration_1 ∧
    s.ExternalSync.random_byte_ = s.random_byte_ ∧
    s.ExternalSync.pattern_ = s.pattern_ ∧
    s.ExternalSync.pattern_mask_ = s.pattern_mask_ ∧
    s.ExternalSync.pattern_step_ = s.pattern_step_ ∧
    s.ExternalSync.pattern_size_ = s.pattern_size_ ∧
    s.ExternalSync.arpeggio_step_ = s.arpeggio_step_ ∧
    s.ExternalSync.direction_ = s.direction_ ∧
    s.ExternalSync.octave_step_ = s.octave_step_ ∧
    s.ExternalSync.octaves_ = s.octaves_ ∧
    s.ExternalSync.mode_ = s.mode_ ∧
    s.ExternalSync.notes_ = s.notes_ ∧
    s.ExternalSync.voices_ = s.voices_ ∧
    s.ExternalSync.num_voices_ = s.num_voices_ ∧
    s.ExternalSync.tempo_ = s.tempo_ ∧
    s.ExternalSync.swing_ = s.swing_ ∧
    s.ExternalSync.has_ticked_ = s.has_ticked_ ∧
    s.ExternalSync.step_duration_estimator_num_ = s.step_duration_estimator_num_ ∧
    s.ExternalSync.step_duration_estimator_den_ = s.step_duration_estimator_den_ ∧
    s.ExternalSync.estimated_beat_duration_ = s.estimated_beat_duration_ := by
  refine ⟨?_, ?_, rfl, rfl, rfl, rfl, rfl, rfl, rfl, rfl, rfl, rfl, rfl, rfl, rfl, rfl, rfl,
    rfl, rfl, rfl, rfl, rfl, rfl, rfl⟩
  · show ((wrapU8 ((s.midi_clock_counter_ : Int) - 1) : Nat) : Int) = _
    unfold wrapU8
    omega
  · intro hlo hhi
    show wrapU8 ((s.midi_clock_counter_ : Int) - 1) = s.midi_clock_counter_ - 1
    unfold wrapU8
    omega

/-- Instance of `ExternalSync_contract` at `sampleState`, whose pulse counter is 6. -/
theorem ExternalSync_contract_witness :
    (1 ≤ sampleState.midi_clock_counter_ ∧ sampleState.midi_clock_counter_ < 256) ∧
    sampleState.ExternalSync.midi_clock_counter_ = sampleState.midi_clock_counter_ - 1 :=
  ⟨⟨by decide, by decide⟩, (ExternalSync_contract sampleState).2.1 (by decide) (by decide)⟩

/-! ## `ClearTick()` -/

/-- Claim C3. `has_ticked()` read immediately after `ClearTick()` returns 0
(false), and `ClearTick()` changes nothing but the tick flag: `step()`,
`has_arpeggiator_note()`, `estimated_beat_duration()`, both clock counters and
every remaining field are the same before and after. -/
theorem ClearTick_contract (s : VoiceController NoteStack VoicePtr) :
    s.ClearTick.has_ticked = 0 ∧
    s.ClearTick.step = s.step ∧
    s.ClearTick.has_arpeggiator_note = s.has_arpeggiator_note ∧
    s.ClearTick.estimated_beat_duration = s.estimated_beat_duration ∧
    s.ClearTick.internal_clock_counter_ = s.internal_clock_counter_ ∧
    s.ClearTick.midi_clock_counter_ = s.midi_clock_counter_ ∧
    s.ClearTick = { s with has_ticked_ := 0 } ∧
    { s.ClearTick with has_ticked_ := s.has_ticked_ } = s :=
  ⟨rfl, rfl, rfl, rfl, rfl, rfl, rfl, rfl⟩

/-! ## `has_arpeggiator_note()` -/

/-- Masking with a single bit either keeps that bit or gives 0, according to
whether the bit is set in the other operand. -/
theorem two_pow_and_eq (i p : Nat) :
    2 ^ i &&& p = if p.testBit i then 2 ^ i else 0 := by
  apply Nat.eq_of_testBit_eq
  intro j
  rw [Nat.testBit_and, Nat.testBit_two_pow]
  by_cases hij : i = j
  · subst hij
    cases hb : p.testBit i <;> simp [Nat.testBit_two_pow]
  · cases hb : p.testBit i <;> simp [Nat.testBit_two_pow, hij]

/-- The specification's indexed bit test is `Nat.testBit`. -/
theorem pattern_bit_at_eq_testBit (p i : Nat) : pattern_bit_at p i = p.testBit i := by
  unfold pattern_bit_at
  rw [Nat.testBit_to_div_mod]
  by_cases h : p / 2 ^ i % 2 = 1 <;> simp [h]

/-- Claim C4. For every pattern and every step index `i` in `0..15`, in a state
whose pattern mask is the single bit `1 << i`, `has_arpeggiator_note()` returns
`pattern_mask & pattern`; this value is either 0 or the mask itself; and it is
nonzero if and only if bit `i` of the pattern is set, that is, the
rotating-mask test agrees with direct indexed bit-testing of the pattern at the
step index. -/
theorem has_arpeggiator_note_iff_pattern_bit (s : VoiceController NoteStack VoicePtr)
    (i : Nat) (hi : i < 16) (hm : s.pattern_mask_ = 1 <<< i) :
    s.has_arpeggiator_note = s.pattern_mask_ &&& s.pattern_ ∧
    (s.has_arpeggiator_note = 0 ∨ s.has_arpeggiator_note = s.pattern_mask_) ∧
    (s.has_arpeggiator_note ≠ 0 ↔ s.pattern_.testBit i = true) ∧
    (s.has_arpeggiator_note ≠ 0 ↔ pattern_bit_at s.pattern_ i = true) ∧
    (s.step = i → (s.has_arpeggiator_note ≠ 0 ↔ pattern_bit_at s.pattern_ s.step = true)) := by
  have hmask : s.pattern_mask_ = 2 ^ i := by rw [hm, Nat.one_shiftLeft]
  have hpos : 0 < 2 ^ i := Nat.two_pow_pos i
  have hlt : 2 ^ i < 65536 := by
    have h16 : (65536 : Nat) = 2 ^ 16 := by norm_num
    rw [h16]
    exact Nat.pow_lt_pow_right (by decide) hi
  have hand : s.pattern_mask_ &&& s.pattern_ = if s.pattern_.testBit i then 2 ^ i else 0 := by
    rw [hmask, two_pow_and_eq]
  have hret : s.has_arpeggiator_note = s.pattern_mask_ &&& s.pattern_ := by
    show wrapU16 (s.pattern_mask_ &&& s.pattern_) = s.pattern_mask_ &&& s.pattern_
    unfold wrapU16
    apply Nat.mod_eq_of_lt
    rw [hand]
    split <;> omega
  have hbit : s.has_arpeggiator_note ≠ 0 ↔ s.pattern_.testBit i = true := by
    rw [hret, hand]
    cases hb : s.pattern_.testBit i
    · simp
    · simp
  have hspec : s.has_arpeggiator_note ≠ 0 ↔ pattern_bit_at s.pattern_ i = true := by
    rw [pattern_bit_at_eq_testBit]; exact hbit
  refine ⟨hret, ?_, hbit, hspec, ?_⟩
  · rw [hret, hand, hmask]
    cases hb : s.pattern_.testBit i
    · left; simp
    · right; simp
  · intro hstep
    rw [hstep]; exact hspec

/-- Instance of `has_arpeggiator_note_iff_pattern_bit` at `sampleState`: step 5,
mask `1 << 5`, pattern `0b1010101010101010`, whose bit 5 is set. -/
theorem has_arpeggiator_note_iff_pattern_bit_witness :
    (5 < 16 ∧ sampleState.pattern_mask_ = 1 <<< 5) ∧
    sampleState.has_arpeggiator_note = sampleState.pattern_mask_ &&& sampleState.pattern_ ∧
    (sampleState.has_arpeggiator_note = 0 ∨
      sampleState.has_arpeggiator_note = sampleState.pattern_mask_) ∧
    (sampleState.has_arpeggiator_note ≠ 0 ↔ sampleState.pattern_.testBit 5 = true) ∧
    (sampleState.has_arpeggiator_note ≠ 0 ↔ pattern_bit_at sampleState.pattern_ 5 = true) ∧
    (sampleState.step = 5 →
      (sampleState.has_arpeggiator_note ≠ 0 ↔
        pattern_bit_at sampleState.pattern_ sampleState.step = true)) :=
  ⟨⟨by decide, by decide⟩,
    has_arpeggiator_note_iff_pattern_bit sampleState 5 (by decide) (by decide)⟩

/-! ## `set_pattern_size` -/

/-- Claim C5, as stated, fails. In `sampleState` (in range, step index 5,
pattern size 16) the call `set_pattern_size(3)` stores 3 as the pattern size
and leaves the step index at 5, so `step()` is not below 3 afterwards. -/
theorem set_pattern_size_step_not_bounded :
    sampleState.InRange ∧
    sampleState.step = 5 ∧
    (sampleState.set_pattern_size 3).pattern_size_ = 3 ∧
    (sampleState.set_pattern_size 3).step = 5 ∧
    ¬ ((sampleState.set_pattern_size 3).step < 3) := by
  refine ⟨?_, rfl, by decide, rfl, by decide⟩
  unfold InRange
  decide

/-- Claim C5, amended. `set_pattern_size(n)` stores the 8-bit `n` as the pattern
size and leaves the step index unchanged: `step()` after the call equals
`step()` before it, so it is at least 0, and it is strictly less than `n`
exactly when the step index was already less than `n` before the call. -/
theorem set_pattern_size_contract (s : VoiceController NoteStack VoicePtr) (n : Nat) :
    (s.set_pattern_size n).pattern_size_ = n % 256 ∧
    (s.set_pattern_size n).step = s.step ∧
    0 ≤ (s.set_pattern_size n).step ∧
    ((s.set_pattern_size n).step < n ↔ s.step < n) := by
  refine ⟨?_, rfl, Nat.zero_le _, Iff.rfl⟩
  show wrapU8 (n : Int) = n % 256
  unfold wrapU8
  omega

/-! ## `SetOctaves` -/

/-- The stored octave range after `SetOctaves(o)` for an 8-bit `o`. -/
theorem SetOctaves_octaves (s : VoiceController NoteStack VoicePtr) (o : Nat) (ho : o < 256) :
    (s.SetOctaves o).octaves_ = if o ≤ 127 then (o : Int) else (o : Int) - 256 := by
  show wrapS8 (wrapU8 (o : Int) : Nat) = _
  unfold wrapS8 wrapU8
  split <;> omega

/-- Claim C6, as stated, fails. `SetOctaves(0)` stores 0 and `SetOctaves(200)`
stores -56 in the signed 8-bit field `octaves_`; neither is at least 1. -/
theorem SetOctaves_not_clamped :
    (sampleState.SetOctaves 0).octaves_ = 0 ∧
    ¬ (1 ≤ (sampleState.SetOctaves 0).octaves_) ∧
    (sampleState.SetOctaves 200).octaves_ = -56 ∧
    ¬ (1 ≤ (sampleState.SetOctaves 200).octaves_) := by
  refine ⟨by decide, by decide, by decide, by decide⟩

/-- Claim C6, amended. `SetOctaves(o)` stores the 8-bit argument without
clamping, converted to the signed 8-bit field: `octaves_` is `o` for `o` in
`0..127` and `o - 256` for `o` in `128..255`. The stored range is at least 1
exactly when `1 <= o <= 127`. -/
theorem SetOctaves_contract (s : VoiceController NoteStack VoicePtr) (o : Nat) (ho : o < 256) :
    (o ≤ 127 → (s.SetOctaves o).octaves_ = (o : Int)) ∧
    (128 ≤ o → (s.SetOctaves o).octaves_ = (o : Int) - 256) ∧
    (1 ≤ (s.SetOctaves o).octaves_ ↔ 1 ≤ o ∧ o ≤ 127) := by
  rw [SetOctaves_octaves s o ho]
  refine ⟨?_, ?_, ?_⟩
  · intro h; rw [if_pos h]
  · intro h; rw [if_neg (by omega)]
  · split <;> omega

/-- Instance of `SetOctaves_contract` at `sampleState` with `o = 3`. -/
theorem SetOctaves_contract_witness :
    (3 < 256 ∧ 3 ≤ 127) ∧ (sampleState.SetOctaves 3).octaves_ = ((3 : Nat) : Int) :=
  ⟨⟨by decide, by decide⟩, (SetOctaves_contract sampleState 3 (by decide)).1 (by decide)⟩

end VoiceController

/-! ## The octave-step invariant -/

/-- Claim C7, as stated, fails. `sampleState` satisfies `0 <= octave_step < octaves`
(step 2, range 3); after `SetOctaves(1)` the range is 1 while the octave step is
still 2, so the predicate no longer holds. -/
theorem SetOctaves_breaks_octave_step_range :
    sampleState.InRange ∧
    OctaveStepInRange sampleState ∧
    (sampleState.SetOctaves 1).octave_step_ = 2 ∧
    (sampleState.SetOctaves 1).octaves_ = 1 ∧
    ¬ OctaveStepInRange (sampleState.SetOctaves 1) := by
  refine ⟨?_, by decide, rfl, by decide, by decide⟩
  unfold VoiceController.InRange
  decide

/-- Claim C7, amended. The predicate `0 <= octave_step < octaves` is preserved by
`set_pattern_size(n)`, `Audio()`, `ExternalSync()` and `ClearTick()` for every
state that satisfies it and every argument. `SetOctaves(o)` replaces the range
without adjusting the octave step, so on such a state it preserves the
predicate exactly when the octave step is below the new signed 8-bit range. -/
theorem OctaveStepInRange_preserved {NoteStack VoicePtr : Type}
    (s : VoiceController NoteStack VoicePtr) (h : OctaveStepInRange s) (n o : Nat) :
    OctaveStepInRange (s.set_pattern_size n) ∧
    OctaveStepInRange s.Audio ∧
    OctaveStepInRange s.ExternalSync ∧
    OctaveStepInRange s.ClearTick ∧
    (OctaveStepInRange (s.SetOctaves o) ↔ s.octave_step_ < wrapS8 (wrapU8 (o : Int) : Nat)) ∧
    (o < 128 → (OctaveStepInRange (s.SetOctaves o) ↔ s.octave_step_ < (o : Int))) := by
  refine ⟨h, h, h, h, ?_, ?_⟩
  · show (0 ≤ s.octave_step_ ∧ s.octave_step_ < wrapS8 (wrapU8 (o : Int) : Nat)) ↔ _
    exact ⟨fun hh => hh.2, fun hh => ⟨h.1, hh⟩⟩
  · intro ho
    show (0 ≤ s.octave_step_ ∧ s.octave_step_ < (s.SetOctaves o).octaves_) ↔ _
    rw [VoiceController.SetOctaves_octaves s o (by omega), if_pos (by omega)]
    exact ⟨fun hh => hh.2, fun hh => ⟨h.1, hh⟩⟩

/-- Instance of `OctaveStepInRange_preserved` at `sampleState` (octave step 2,
range 3) with `n = 8` and `o = 4`: every call, `SetOctaves(4)` included, keeps
the octave step within the range. -/
theorem OctaveStepInRange_preserved_witness :
    OctaveStepInRange sampleState ∧
    OctaveStepInRange (sampleState.set_pattern_size 8) ∧
    OctaveStepInRange sampleState.Audio ∧
    OctaveStepInRange sampleState.ExternalSync ∧
    OctaveStepInRange sampleState.ClearTick ∧
    OctaveStepInRange (sampleState.SetOctaves 4) :=
  have hw := OctaveStepInRange_preserved sampleState (by decide) 8 4
  ⟨by decide, hw.1, hw.2.1, hw.2.2.1, hw.2.2.2.1,
    (hw.2.2.2.2.2 (by decide)).2 (by decide)⟩

/-! ## Interleavings of `Audio()` and `ExternalSync()` -/

section Interleaving

variable {NoteStack VoicePtr : Type}

/-- The two interrupt handlers commute on every state. -/
theorem Audio_ExternalSync_comm (s : VoiceController NoteStack VoicePtr) :
    s.ExternalSync.Audio = s.Audio.ExternalSync := rfl

/-- A pulse before a run of `Audio()` calls can be moved after the run. -/
theorem callN_Audio_ExternalSync (a : Nat) (s : VoiceController NoteStack VoicePtr) :
    callN VoiceController.Audio a s.ExternalSync =
      (callN VoiceController.Audio a s).ExternalSync := by
  induction a generalizing s with
  | zero => rfl
  | succ k ih =>
    show callN VoiceController.Audio k s.ExternalSync.Audio =
      (callN VoiceController.Audio k s.Audio).ExternalSync
    rw [Audio_ExternalSync_comm, ih]

/-- Any sequence of interrupt calls equals all its `Audio()` calls followed by
all its `ExternalSync()` calls. -/
theorem runTicks_normal_form (l : List TickCall) (s : VoiceController NoteStack VoicePtr) :
    runTicks l s =
      callN VoiceController.ExternalSync (l.count TickCall.externalSync)
        (callN VoiceController.Audio (l.count TickCall.audio) s) := by
  induction l generalizing s with
  | nil => rfl
  | cons c cs ih =>
    cases c with
    | audio =>
      show runTicks cs s.Audio = _
      rw [ih]
      simp [List.count_cons, callN]
    | externalSync =>
      show runTicks cs s.ExternalSync = _
      rw [ih, callN_Audio_ExternalSync]
      simp [List.count_cons, callN]

/-- Claim C8. `Audio()` and `ExternalSync()` commute: on every state, `Audio()`
then `ExternalSync()` gives exactly the state of `ExternalSync()` then
`Audio()`; and any interleaving of `a` calls of `Audio()` and `b` calls of
`ExternalSync()` gives the state of `a` calls of `Audio()` followed by `b` calls
of `ExternalSync()`, so two interleavings with the same `a` and `b` end in the
same state. -/
theorem Audio_ExternalSync_interleaving (s : VoiceController NoteStack VoicePtr) :
    runTicks [TickCall.audio, TickCall.externalSync] s =
      runTicks [TickCall.externalSync, TickCall.audio] s ∧
    s.Audio.ExternalSync = s.ExternalSync.Audio ∧
    (∀ l : List TickCall,
      runTicks l s =
        callN VoiceController.ExternalSync (l.count TickCall.externalSync)
          (callN VoiceController.Audio (l.count TickCall.audio) s)) ∧
    (∀ l₁ l₂ : List TickCall,
      l₁.count TickCall.audio = l₂.count TickCall.audio →
      l₁.count TickCall.externalSync = l₂.count TickCall.externalSync →
      runTicks l₁ s = runTicks l₂ s) := by
  refine ⟨rfl, rfl, fun l => runTicks_normal_form l s, ?_⟩
  intro l₁ l₂ ha hb
  rw [runTicks_normal_form l₁, runTicks_normal_form l₂, ha, hb]

/-- Instance of `Audio_ExternalSync_interleaving` at `sampleState`: two
interleavings of two `Audio()` calls and one `ExternalSync()` call. -/
theorem Audio_ExternalSync_interleaving_witness :
    runTicks [TickCall.audio, TickCall.externalSync, TickCall.audio] sampleState =
      runTicks [TickCall.externalSync, TickCall.audio, TickCall.audio] sampleState :=
  (Audio_ExternalSync_interleaving sampleState).2.2.2
    [TickCall.audio, TickCall.externalSync, TickCall.audio]
    [TickCall.externalSync, TickCall.audio, TickCall.audio] (by decide) (by decide)

end Interleaving

/-! ## The tick flag -/

/-- Claim C9. No call other than `ClearTick()` changes the tick flag: for every
state and every finite sequence of calls drawn from `Audio()`, `ExternalSync()`,
`SetOctaves(o)` and `set_pattern_size(n)`, `has_ticked()` after the sequence
equals `has_ticked()` before it; a set flag stays set and a cleared flag stays
cleared. -/
theorem has_ticked_preserved {NoteStack VoicePtr : Type} (l : List Call)
    (s : VoiceController NoteStack VoicePtr) :
    (runCalls l s).has_ticked = s.has_ticked := by
  induction l generalizing s with
  | nil => rfl
  | cons c cs ih =>
    show (runCalls cs (c.apply s)).has_ticked = s.has_ticked
    rw [ih]
    cases c <;> rfl

/-! ## Counting down a loaded duration -/

section Countdown

variable {NoteStack VoicePtr : Type}

/-- The internal counter after `k` calls of `Audio()`, while it stays in range. -/
theorem callN_Audio_counter (k : Nat) (s : VoiceController NoteStack VoicePtr)
    (hlo : -32768 ≤ s.internal_clock_counter_ - (k : Int))
    (hhi : s.internal_clock_counter_ ≤ 32767) :
    (callN VoiceController.Audio k s).internal_clock_counter_ =
      s.internal_clock_counter_ - (k : Int) := by
  induction k generalizing s with
  | zero => simp [callN]
  | succ j ih =>
    have hstep : s.Audio.internal_clock_counter_ = s.internal_clock_counter_ - 1 := by
      show wrapS16 (s.internal_clock_counter_ - 1) = s.internal_clock_counter_ - 1
      unfold wrapS16
      omega
    show (callN VoiceController.Audio j s.Audio).internal_clock_counter_ = _
    rw [ih s.Audio (by rw [hstep]; omega) (by rw [hstep]; omega), hstep]
    omega

/-- The external counter after `k` calls of `ExternalSync()`, while it does not
pass zero. -/
theorem callN_ExternalSync_counter (k : Nat) (s : VoiceController NoteStack VoicePtr)
    (hlo : k ≤ s.midi_clock_counter_) (hhi : s.midi_clock_counter_ < 256) :
    (callN VoiceController.ExternalSync k s).midi_clock_counter_ =
      s.midi_clock_counter_ - k := by
  induction k generalizing s with
  | zero => simp [callN]
  | succ j ih =>
    have hstep : s.ExternalSync.midi_clock_counter_ = s.midi_clock_counter_ - 1 := by
      show wrapU8 ((s.midi_clock_counter_ : Int) - 1) = s.midi_clock_counter_ - 1
      unfold wrapU8
      omega
    show (callN VoiceController.ExternalSync j s.ExternalSync).midi_clock_counter_ = _
    rw [ih s.ExternalSync (by rw [hstep]; omega) (by rw [hstep]; omega), hstep]
    omega

/-- Claim C10. A counter loaded with a duration `d` signals "slot elapsed" after
exactly `d` tick calls and not earlier. For `d` in `1..32767` and internal
counter equal to `d`, the counter is positive after `k < d` calls of `Audio()`
and is 0 after exactly `d` calls. For `d` in `1..255` and external counter equal
to `d`, the counter is nonzero after `k < d` calls of `ExternalSync()` and is 0
after exactly `d` calls; `kMidiClockPrescaler = 24 / 4 = 6` is such a `d`. -/
theorem counter_elapses_after_exactly_d :
    (∀ (s : VoiceController NoteStack VoicePtr) (d k : Nat),
      1 ≤ d → d ≤ 32767 → s.internal_clock_counter_ = (d : Int) →
      (k < d → 0 < (callN VoiceController.Audio k s).internal_clock_counter_) ∧
      (callN VoiceController.Audio d s).internal_clock_counter_ = 0) ∧
    (∀ (s : VoiceController NoteStack VoicePtr) (d k : Nat),
      1 ≤ d → d ≤ 255 → s.midi_clock_counter_ = d →
      (k < d → (callN VoiceController.ExternalSync k s).midi_clock_counter_ ≠ 0) ∧
      (callN VoiceController.ExternalSync d s).midi_clock_counter_ = 0) ∧
    kMidiClockPrescaler = 6 ∧
    (∀ (s : VoiceController NoteStack VoicePtr) (k : Nat),
      s.midi_clock_counter_ = kMidiClockPrescaler →
      (k < kMidiClockPrescaler →
        (callN VoiceController.ExternalSync k s).midi_clock_counter_ ≠ 0) ∧
      (callN VoiceController.ExternalSync kMidiClockPrescaler s).midi_clock_counter_ = 0) := by
  have hint : ∀ (s : VoiceController NoteStack VoicePtr) (d k : Nat),
      1 ≤ d → d ≤ 32767 → s.internal_clock_counter_ = (d : Int) →
      (k < d → 0 < (callN VoiceController.Audio k s).internal_clock_counter_) ∧
      (callN VoiceController.Audio d s).internal_clock_counter_ = 0 := by
    intro s d k h1 h2 hd
    constructor
    · intro hk
      rw [callN_Audio_counter k s (by omega) (by omega)]
      omega
    · rw [callN_Audio_counter d s (by omega) (by omega)]
      omega
  have hext : ∀ (s : VoiceController NoteStack VoicePtr) (d k : Nat),
      1 ≤ d → d ≤ 255 → s.midi_clock_counter_ = d →
      (k < d → (callN VoiceController.ExternalSync k s).midi_clock_counter_ ≠ 0) ∧
      (callN VoiceController.ExternalSync d s).midi_clock_counter_ = 0 := by
    intro s d k h1 h2 hd
    constructor
    · intro hk
      rw [callN_ExternalSync_counter k s (by omega) (by omega)]
      omega
    · rw [callN_ExternalSync_counter d s (by omega) (by omega)]
      omega
  have hpre : kMidiClockPrescaler = 6 := by decide
  refine ⟨hint, hext, hpre, ?_⟩
  intro s k hs
  rw [hpre] at hs ⊢
  exact hext s 6 k (by decide) (by decide) hs

end Countdown

/-- Instance of `counter_elapses_after_exactly_d` at `sampleState`: the internal
counter holds 3 and the external counter holds `kMidiClockPrescaler = 6`. -/
theorem counter_elapses_after_exactly_d_witness :
    (sampleState.internal_clock_counter_ = ((3 : Nat) : Int) ∧
      sampleState.midi_clock_counter_ = 6) ∧
    0 < (callN VoiceController.Audio 2 sampleState).internal_clock_counter_ ∧
    (callN VoiceController.Audio 3 sampleState).internal_clock_counter_ = 0 ∧
    (callN VoiceController.ExternalSync 5 sampleState).midi_clock_counter_ ≠ 0 ∧
    (callN VoiceController.ExternalSync 6 sampleState).midi_clock_counter_ = 0 :=
  have hi := counter_elapses_after_exactly_d.1 sampleState 3 2 (by decide) (by decide)
    (by decide)
  have he := counter_elapses_after_exactly_d.2.1 sampleState 6 5 (by decide) (by decide)
    (by decide)
  ⟨⟨by decide, by decide⟩, hi.1 (by decide), hi.2, he.1 (by decide), he.2⟩

end hardware_shruti
